import Mathlib

/-!
# SalarySense conversion engine: formal model

A shallow embedding of the salary conversion engine (`src/lib/salary.ts` and
`src/lib/constants.ts`): contribution calculation, tax calculation with a
tax-free allowance clamp, the forward conversion gross → net, the piecewise
inverse conversion net → gross, and the tagged dispatcher. All monetary
amounts and rates are modelled as rationals (exact arithmetic).
-/

namespace SalarySense

/-- The four employee-side contribution rates, as in `RATES.contributions`. -/
structure ContributionRates where
  pensionAndDisability : ℚ
  healthInsurance : ℚ
  additionalHealthInsurance : ℚ
  unemploymentInsurance : ℚ
deriving DecidableEq

/-- A rate configuration: contribution rates, flat tax rate, tax-free
allowance (the shape of `RATES` in `constants.ts`). -/
structure Rates where
  contributions : ContributionRates
  tax : ℚ
  allowance : ℚ
deriving DecidableEq

/-- The default rate constant `RATES` from `src/lib/constants.ts`. -/
def RATES : Rates :=
  { contributions :=
      { pensionAndDisability := 188/1000
      , healthInsurance := 75/1000
      , additionalHealthInsurance := 5/1000
      , unemploymentInsurance := 12/1000 }
  , tax := 1/10
  , allowance := 10932 }

/-- Result shape of `calculateContributions`. -/
structure ContributionsBreakdown where
  pensionAndDisability : ℚ
  healthInsurance : ℚ
  additionalHealthInsurance : ℚ
  unemploymentInsurance : ℚ
  total : ℚ
deriving DecidableEq

/-- Result shape of `calculateTax`. -/
structure TaxBreakdown where
  taxableBase : ℚ
  incomeTax : ℚ
deriving DecidableEq

/-- Result shape of the whole engine. -/
structure SalaryBreakdown where
  gross : ℚ
  net : ℚ
  contributions : ContributionsBreakdown
  tax : TaxBreakdown
deriving DecidableEq

/-- `getTotalContributionRate` from `salary.ts`: the sum of the four
employee contribution rates, in the source's summation order. -/
def getTotalContributionRate (rates : Rates) : ℚ :=
  rates.contributions.pensionAndDisability +
  rates.contributions.healthInsurance +
  rates.contributions.unemploymentInsurance +
  rates.contributions.additionalHealthInsurance

/-- `calculateContributions` from `salary.ts`: each contribution amount is
`gross * rate`, and `total` is their sum computed independently, in the
source's summation order. -/
def calculateContributions (gross : ℚ) (rates : Rates) : ContributionsBreakdown :=
  { pensionAndDisability := gross * rates.contributions.pensionAndDisability
  , healthInsurance := gross * rates.contributions.healthInsurance
  , additionalHealthInsurance := gross * rates.contributions.additionalHealthInsurance
  , unemploymentInsurance := gross * rates.contributions.unemploymentInsurance
  , total :=
      gross * rates.contributions.pensionAndDisability +
      gross * rates.contributions.healthInsurance +
      gross * rates.contributions.unemploymentInsurance +
      gross * rates.contributions.additionalHealthInsurance }

/-- `calculateTax` from `salary.ts`: taxable base is the post-contribution
gross minus allowance, clamped at zero; income tax is the flat rate applied
to the taxable base. -/
def calculateTax (grossAfterContributions : ℚ) (rates : Rates) : TaxBreakdown :=
  let taxableBase := max 0 (grossAfterContributions - rates.allowance)
  { taxableBase := taxableBase
  , incomeTax := taxableBase * rates.tax }

/-- `calculateNetSalary` from `salary.ts`: the forward conversion
gross → net. -/
def calculateNetSalary (gross : ℚ) (rates : Rates) : SalaryBreakdown :=
  let contributions := calculateContributions gross rates
  let grossAfterContributions := gross - contributions.total
  let tax := calculateTax grossAfterContributions rates
  let net := grossAfterContributions - tax.incomeTax
  { gross := gross
  , net := net
  , contributions := contributions
  , tax := tax }

/-- `calculateGrossSalary` from `salary.ts`: the inverse conversion
net → gross. Picks the no-tax or taxable branch by comparing `net` to the
net-side threshold, derives `gross`, then delegates to `calculateNetSalary`. -/
def calculateGrossSalary (net : ℚ) (rates : Rates) : SalaryBreakdown :=
  let contributionRate := getTotalContributionRate rates
  let multiplier := (1 - contributionRate) * (1 - rates.tax)
  let constant := rates.tax * rates.allowance
  let thresholdGross := rates.allowance / (1 - contributionRate)
  let thresholdNet := (1 - contributionRate) * thresholdGross
  let gross :=
    if net ≤ thresholdNet then
      net / (1 - contributionRate)
    else
      (net - constant) / multiplier
  calculateNetSalary gross rates

/-- `SalaryInput` from `salary.ts`: a tagged amount. -/
inductive SalaryInput where
  | gross (amount : ℚ)
  | net (amount : ℚ)
deriving DecidableEq

/-- `calculateSalary` from `salary.ts`: the tag dispatcher. -/
def calculateSalary (input : SalaryInput) (rates : Rates) : SalaryBreakdown :=
  match input with
  | .gross amount => calculateNetSalary amount rates
  | .net amount => calculateGrossSalary amount rates

/-- Convenience abbreviation for the net-side branch threshold computed
inside `calculateGrossSalary`. -/
def thresholdNetOf (rates : Rates) : ℚ :=
  (1 - getTotalContributionRate rates) *
    (rates.allowance / (1 - getTotalContributionRate rates))

/-- The total contribution amount is gross times the total contribution
rate. -/
theorem contributions_total_eq (g : ℚ) (rates : Rates) :
    (calculateContributions g rates).total = g * getTotalContributionRate rates := by
  simp only [calculateContributions, getTotalContributionRate]
  ring

/-- The forward conversion echoes its gross argument. -/
theorem netSalary_gross_eq (g : ℚ) (rates : Rates) :
    (calculateNetSalary g rates).gross = g := rfl

/-- Closed form of the taxable base computed by the forward conversion. -/
theorem netSalary_taxableBase_eq (g : ℚ) (rates : Rates) :
    (calculateNetSalary g rates).tax.taxableBase =
      max 0 (g * (1 - getTotalContributionRate rates) - rates.allowance) := by
  have h : g - (calculateContributions g rates).total =
      g * (1 - getTotalContributionRate rates) := by
    rw [contributions_total_eq]; ring
  simp only [calculateNetSalary, calculateTax, h]

/-- Closed form of the income tax computed by the forward conversion. -/
theorem netSalary_incomeTax_eq (g : ℚ) (rates : Rates) :
    (calculateNetSalary g rates).tax.incomeTax =
      max 0 (g * (1 - getTotalContributionRate rates) - rates.allowance) *
        rates.tax := by
  have h : g - (calculateContributions g rates).total =
      g * (1 - getTotalContributionRate rates) := by
    rw [contributions_total_eq]; ring
  simp only [calculateNetSalary, calculateTax, h]

/-- Closed form of the net computed by the forward conversion. -/
theorem netSalary_net_eq (g : ℚ) (rates : Rates) :
    (calculateNetSalary g rates).net =
      g * (1 - getTotalContributionRate rates) -
        max 0 (g * (1 - getTotalContributionRate rates) - rates.allowance) *
          rates.tax := by
  have h : g - (calculateContributions g rates).total =
      g * (1 - getTotalContributionRate rates) := by
    rw [contributions_total_eq]; ring
  simp only [calculateNetSalary, calculateTax, h]

/-- The inverse conversion is the forward conversion applied to the
branch-selected derived gross. -/
theorem grossSalary_unfold (net : ℚ) (rates : Rates) :
    calculateGrossSalary net rates =
      calculateNetSalary
        (if net ≤ thresholdNetOf rates then
          net / (1 - getTotalContributionRate rates)
        else
          (net - rates.tax * rates.allowance) /
            ((1 - getTotalContributionRate rates) * (1 - rates.tax)))
        rates := rfl

/-- The gross derived by the inverse conversion, branch by branch. -/
theorem grossSalary_gross_eq (net : ℚ) (rates : Rates) :
    (calculateGrossSalary net rates).gross =
      if net ≤ thresholdNetOf rates then
        net / (1 - getTotalContributionRate rates)
      else
        (net - rates.tax * rates.allowance) /
          ((1 - getTotalContributionRate rates) * (1 - rates.tax)) := rfl

/-- With a non-degenerate contribution rate, the net-side threshold is
exactly the allowance. -/
theorem thresholdNetOf_eq (rates : Rates)
    (h : getTotalContributionRate rates ≠ 1) :
    thresholdNetOf rates = rates.allowance := by
  have h1 : (1 : ℚ) - getTotalContributionRate rates ≠ 0 :=
    sub_ne_zero.mpr (Ne.symm h)
  unfold thresholdNetOf
  field_simp

/-- C1: every breakdown the engine produces — forward conversion, inverse
conversion, and dispatcher — satisfies the conservation law
`net = gross - contributions.total - tax.incomeTax` exactly. -/
theorem net_conservation (g n : ℚ) (input : SalaryInput) (rates : Rates) :
    ((calculateNetSalary g rates).net =
      (calculateNetSalary g rates).gross -
        (calculateNetSalary g rates).contributions.total -
        (calculateNetSalary g rates).tax.incomeTax) ∧
    ((calculateGrossSalary n rates).net =
      (calculateGrossSalary n rates).gross -
        (calculateGrossSalary n rates).contributions.total -
        (calculateGrossSalary n rates).tax.incomeTax) ∧
    ((calculateSalary input rates).net =
      (calculateSalary input rates).gross -
        (calculateSalary input rates).contributions.total -
        (calculateSalary input rates).tax.incomeTax) := by
  refine ⟨rfl, rfl, ?_⟩
  cases input <;> rfl

/-- C2: `calculateGrossSalary` compares `net` to the threshold
`(1 - contributionRate) * (allowance / (1 - contributionRate))`, derives the
gross by the corresponding closed form, and returns exactly the breakdown
that `calculateNetSalary` computes for that derived gross. -/
theorem grossSalary_branch_and_delegate (net : ℚ) (rates : Rates) :
    calculateGrossSalary net rates =
      calculateNetSalary
        (if net ≤ (1 - getTotalContributionRate rates) *
              (rates.allowance / (1 - getTotalContributionRate rates)) then
          net / (1 - getTotalContributionRate rates)
        else
          (net - rates.tax * rates.allowance) /
            ((1 - getTotalContributionRate rates) * (1 - rates.tax)))
        rates := rfl

/-- C4: for every input, `calculateTax` returns
`taxableBase = max 0 (grossAfterContributions - allowance)`, which is never
negative. -/
theorem taxableBase_clamped (grossAfterContributions : ℚ) (rates : Rates) :
    (calculateTax grossAfterContributions rates).taxableBase =
      max 0 (grossAfterContributions - rates.allowance) ∧
    0 ≤ (calculateTax grossAfterContributions rates).taxableBase :=
  ⟨rfl, le_max_left 0 _⟩

/-- C6: every engine operation is a total function: for every amount, every
input tag and every rate configuration (including degenerate ones) it
returns a structurally complete breakdown value — there is no error case. -/
theorem engine_total (g n a : ℚ) (input : SalaryInput) (rates : Rates) :
    (∃ b : ContributionsBreakdown, calculateContributions g rates = b) ∧
    (∃ b : TaxBreakdown, calculateTax a rates = b) ∧
    (∃ b : SalaryBreakdown, calculateNetSalary g rates = b) ∧
    (∃ b : SalaryBreakdown, calculateGrossSalary n rates = b) ∧
    (∃ b : SalaryBreakdown,
      calculateSalary input rates = b ∧
      b = { gross := b.gross, net := b.net
          , contributions := b.contributions, tax := b.tax }) :=
  ⟨⟨_, rfl⟩, ⟨_, rfl⟩, ⟨_, rfl⟩, ⟨_, rfl⟩, ⟨_, rfl, rfl⟩⟩

/-- C8: concrete values at the reference rates: the contribution breakdown
of gross 65000 and the forward conversion of gross 65000. -/
theorem reference_scenario_65000 :
    (calculateContributions 65000 RATES).pensionAndDisability = 12220 ∧
    (calculateContributions 65000 RATES).healthInsurance = 4875 ∧
    (calculateContributions 65000 RATES).additionalHealthInsurance = 325 ∧
    (calculateContributions 65000 RATES).unemploymentInsurance = 780 ∧
    (calculateContributions 65000 RATES).total = 18200 ∧
    65000 - (calculateNetSalary 65000 RATES).contributions.total = 46800 ∧
    (calculateNetSalary 65000 RATES).tax.taxableBase = 35868 ∧
    (calculateNetSalary 65000 RATES).tax.incomeTax = 17934/5 ∧
    (calculateNetSalary 65000 RATES).net = 216066/5 := by
  refine ⟨?_, ?_, ?_, ?_, ?_, ?_, ?_, ?_, ?_⟩ <;>
    norm_num [calculateContributions, calculateNetSalary, calculateTax, RATES]

/-- C9: `getTotalContributionRate` is the sum of the four contribution
rates, and at the reference configuration that sum is exactly 0.280. -/
theorem totalContributionRate_sum (rates : Rates) :
    getTotalContributionRate rates =
      rates.contributions.pensionAndDisability +
        rates.contributions.healthInsurance +
        rates.contributions.unemploymentInsurance +
        rates.contributions.additionalHealthInsurance ∧
    getTotalContributionRate RATES = 28/100 :=
  ⟨rfl, by norm_num [getTotalContributionRate, RATES]⟩

/-- C7: called with net exactly at the branch threshold, the inverse
conversion returns a breakdown with zero income tax and zero taxable
base (for any rate configuration whose total contribution rate is not the
degenerate value 1). -/
theorem grossSalary_at_threshold (rates : Rates)
    (hc : getTotalContributionRate rates ≠ 1) :
    (calculateGrossSalary (thresholdNetOf rates) rates).tax.incomeTax = 0 ∧
    (calculateGrossSalary (thresholdNetOf rates) rates).tax.taxableBase = 0 := by
  have h1 : (1 : ℚ) - getTotalContributionRate rates ≠ 0 :=
    sub_ne_zero.mpr (Ne.symm hc)
  have hbranch :
      calculateGrossSalary (thresholdNetOf rates) rates =
        calculateNetSalary
          (thresholdNetOf rates / (1 - getTotalContributionRate rates))
          rates := by
    rw [grossSalary_unfold, if_pos (le_refl _)]
  have key :
      thresholdNetOf rates / (1 - getTotalContributionRate rates) *
          (1 - getTotalContributionRate rates) - rates.allowance = 0 := by
    rw [thresholdNetOf_eq rates hc, div_mul_cancel₀ _ h1, sub_self]
  constructor
  · rw [hbranch, netSalary_incomeTax_eq, key]
    simp
  · rw [hbranch, netSalary_taxableBase_eq, key]
    simp

/-- Witness for C7 at the reference rate configuration. -/
theorem grossSalary_at_threshold_witness :
    (calculateGrossSalary (thresholdNetOf RATES) RATES).tax.incomeTax = 0 ∧
    (calculateGrossSalary (thresholdNetOf RATES) RATES).tax.taxableBase = 0 :=
  grossSalary_at_threshold RATES (by norm_num [getTotalContributionRate, RATES])

/-- The forward conversion is non-decreasing in gross when the total
contribution rate is at most 1 and the tax rate lies in [0, 1]. -/
theorem netSalary_mono (rates : Rates)
    (hc : getTotalContributionRate rates ≤ 1)
    (ht0 : 0 ≤ rates.tax) (ht1 : rates.tax ≤ 1)
    {g1 g2 : ℚ} (h : g1 ≤ g2) :
    (calculateNetSalary g1 rates).net ≤ (calculateNetSalary g2 rates).net := by
  rw [netSalary_net_eq, netSalary_net_eq]
  set c := getTotalContributionRate rates with hc_def
  set t := rates.tax with ht_def
  set a := rates.allowance with ha_def
  have hx : g1 * (1 - c) ≤ g2 * (1 - c) :=
    mul_le_mul_of_nonneg_right h (by linarith)
  set x1 := g1 * (1 - c) with hx1
  set x2 := g2 * (1 - c) with hx2
  rcases le_total (x1 - a) 0 with h1 | h1 <;> rcases le_total (x2 - a) 0 with h2 | h2
  · rw [max_eq_left h1, max_eq_left h2]
    simpa using hx
  · rw [max_eq_left h1, max_eq_right h2]
    nlinarith [mul_nonneg h2 (sub_nonneg.mpr ht1)]
  · rw [max_eq_right h1, max_eq_left h2]
    have := mul_nonneg h1 ht0
    linarith
  · rw [max_eq_right h1, max_eq_right h2]
    nlinarith [mul_nonneg (sub_nonneg.mpr hx) (sub_nonneg.mpr ht1)]

/-- The inverse conversion derives a non-decreasing gross when the total
contribution rate is below 1 and the tax rate lies in [0, 1). -/
theorem grossSalary_mono (rates : Rates)
    (hc : getTotalContributionRate rates < 1)
    (ht0 : 0 ≤ rates.tax) (ht1 : rates.tax < 1)
    {n1 n2 : ℚ} (h : n1 ≤ n2) :
    (calculateGrossSalary n1 rates).gross ≤
      (calculateGrossSalary n2 rates).gross := by
  rw [grossSalary_gross_eq, grossSalary_gross_eq]
  have hT : thresholdNetOf rates = rates.allowance :=
    thresholdNetOf_eq rates (ne_of_lt hc)
  set c := getTotalContributionRate rates with hc_def
  set t := rates.tax with ht_def
  set a := rates.allowance with ha_def
  have hc1 : (0 : ℚ) < 1 - c := by linarith
  have ht1p : (0 : ℚ) < 1 - t := by linarith
  have hD : (0 : ℚ) < (1 - c) * (1 - t) := mul_pos hc1 ht1p
  split_ifs with hA hB hB
  · rw [div_le_div_iff₀ hc1 hc1]
    nlinarith
  · have hn1 : n1 ≤ a := by rw [hT] at hA; exact hA
    have hn2 : a < n2 := by rw [hT] at hB; exact lt_of_not_le hB
    rw [div_le_div_iff₀ hc1 hD]
    nlinarith [mul_le_mul_of_nonneg_right
      (mul_le_mul_of_nonneg_right hn1 (le_of_lt ht1p)) (le_of_lt hc1)]
  · exact absurd (le_trans h hB) hA
  · rw [div_le_div_iff₀ hD hD]
    nlinarith

/-- C5: for a fixed valid rate configuration (total contribution rate
below 1, tax rate in [0, 1)), the forward conversion is non-decreasing in
gross and the inverse conversion is non-decreasing in net. -/
theorem conversions_monotone (rates : Rates)
    (hc : getTotalContributionRate rates < 1)
    (ht0 : 0 ≤ rates.tax) (ht1 : rates.tax < 1) :
    (∀ g1 g2 : ℚ, g1 ≤ g2 →
      (calculateNetSalary g1 rates).net ≤ (calculateNetSalary g2 rates).net) ∧
    (∀ n1 n2 : ℚ, n1 ≤ n2 →
      (calculateGrossSalary n1 rates).gross ≤
        (calculateGrossSalary n2 rates).gross) :=
  ⟨fun _ _ h => netSalary_mono rates (le_of_lt hc) ht0 (le_of_lt ht1) h,
   fun _ _ h => grossSalary_mono rates hc ht0 ht1 h⟩

/-- Witness for C5 at the reference rate configuration and concrete
amounts. -/
theorem conversions_monotone_witness :
    (calculateNetSalary 100 RATES).net ≤ (calculateNetSalary 200 RATES).net ∧
    (calculateGrossSalary 100 RATES).gross ≤
      (calculateGrossSalary 200 RATES).gross :=
  ⟨(conversions_monotone RATES (by norm_num [getTotalContributionRate, RATES])
      (by norm_num [RATES]) (by norm_num [RATES])).1 100 200 (by norm_num),
   (conversions_monotone RATES (by norm_num [getTotalContributionRate, RATES])
      (by norm_num [RATES]) (by norm_num [RATES])).2 100 200 (by norm_num)⟩

/-- A degenerate but finite rate configuration: no contributions, tax rate
2, allowance 10. The engine accepts it (no validation is performed). -/
def degenerateRates : Rates :=
  { contributions :=
      { pensionAndDisability := 0
      , healthInsurance := 0
      , additionalHealthInsurance := 0
      , unemploymentInsurance := 0 }
  , tax := 2
  , allowance := 10 }

/-- C3 counterexample: with the degenerate (but finite, division-safe) rate
configuration above and gross 20, the forward conversion yields net 0, and
the inverse conversion of net 0 derives gross 0 — off from the original
gross 20 by far more than the 1e-5 tolerance. The claim's quantification
over every rate configuration is therefore false. -/
theorem roundtrip_counterexample :
    ¬ |(calculateGrossSalary (calculateNetSalary 20 degenerateRates).net
          degenerateRates).gross - 20| ≤ 1/100000 := by
  have hnet : (calculateNetSalary 20 degenerateRates).net = 0 := by
    rw [netSalary_net_eq]
    norm_num [getTotalContributionRate, degenerateRates]
  have hT : thresholdNetOf degenerateRates = 10 := by
    norm_num [thresholdNetOf, getTotalContributionRate, degenerateRates]
  have hg : (calculateGrossSalary (calculateNetSalary 20 degenerateRates).net
      degenerateRates).gross = 0 := by
    rw [hnet, grossSalary_gross_eq, hT, if_pos (by norm_num)]
    norm_num
  rw [hg]
  norm_num [abs_of_nonpos]

/-- C3 amended: for rate configurations with total contribution rate below
1 and tax rate below 1, the inverse conversion recovers the exact gross the
forward conversion started from, hence stays within the 1e-5 tolerance. -/
theorem roundtrip_exact (rates : Rates) (g : ℚ) (hg : 0 ≤ g)
    (hc : getTotalContributionRate rates < 1) (ht : rates.tax < 1) :
    |(calculateGrossSalary (calculateNetSalary g rates).net rates).gross - g| ≤
      1/100000 := by
  have hc1 : (0 : ℚ) < 1 - getTotalContributionRate rates := by linarith
  have ht1 : (0 : ℚ) < 1 - rates.tax := by linarith
  have hT : thresholdNetOf rates = rates.allowance :=
    thresholdNetOf_eq rates (ne_of_lt hc)
  have hnet := netSalary_net_eq g rates
  rw [grossSalary_gross_eq, hnet, hT]
  set c := getTotalContributionRate rates with hc_def
  set t := rates.tax with ht_def
  set a := rates.allowance with ha_def
  set x := g * (1 - c) with hx
  rcases le_total (x - a) 0 with hcase | hcase
  · rw [max_eq_left hcase]
    rw [if_pos (by linarith)]
    have hdiv : (x - 0 * t) / (1 - c) = g := by
      rw [div_eq_iff (ne_of_gt hc1), hx]
      ring
    rw [hdiv]
    simp
  · rw [max_eq_right hcase]
    split_ifs with hif
    · have hxa : x = a := by nlinarith
      have hdiv : (x - (x - a) * t) / (1 - c) = g := by
        rw [div_eq_iff (ne_of_gt hc1), ← hx, hxa]
        ring
      rw [hdiv]
      simp
    · have hdiv : (x - (x - a) * t - t * a) / ((1 - c) * (1 - t)) = g := by
        rw [div_eq_iff (mul_ne_zero (ne_of_gt hc1) (ne_of_gt ht1)), hx]
        ring
      rw [hdiv]
      simp

/-- Witness for the amended C3 at the reference rate configuration and
gross 65000. -/
theorem roundtrip_exact_witness :
    |(calculateGrossSalary (calculateNetSalary 65000 RATES).net RATES).gross -
        65000| ≤ 1/100000 :=
  roundtrip_exact RATES 65000 (by norm_num)
    (by norm_num [getTotalContributionRate, RATES]) (by norm_num [RATES])

end SalarySense
